import Mathlib

/-!
Verification of the dezoomify-rs tile acquisition and assembly pipeline.

This file gives a shallow embedding, in Lean 4, of the parts of the
repository that the specified properties talk about:

* `Vec2d` and its arithmetic (`src/vec2d.rs` is not shipped in this copy of
  the sources, so the arithmetic is modelled from the specification's data
  model section, which defines it precisely);
* `Tile`, `Tile.empty` and the generic in-memory `Canvas` with its
  `add_tile` pixel-copy loop (`src/tile.rs`, `src/encoder/canvas.rs`);
* the download coordinator state machine: `DownloadState`,
  `process_tile_result`, the per-tile step of `download_batch`, and the
  terminal result computation `validate_download_success` /
  `determine_final_result` of `dezoomify_level`
  (`src/download_state.rs`, `src/lib.rs`);
* the dezoomer registry driver loop `get_dezoomer_result`, the
  auto-dezoomer candidate scan (`src/lib.rs`, `src/auto.rs`) and the URL
  prioritisation table;
* zoom-level / image selection (`resolve_level_index`, `choose_level`,
  `choose_image` in `src/lib.rs`) and the process exit code logic of
  `src/main.rs`.

Machine integers (`u32`, `u64`) are modelled as `Nat`: none of the verified
properties exercises overflow, and the pixel-copy loops only subtract in
regions where the Rust code is also underflow-free.
-/

/-- Modelled from the spec: `src/vec2d.rs` is absent from this source
snapshot; the spec's data model defines `Vec2d` as a pair of unsigned
integers `{x, y}` (used for pixel coordinates, tile sizes and canvas
sizes) with component-wise add/subtract/min and
`a.fits_inside(b) ≡ a.x ≤ b.x ∧ a.y ≤ b.y`. -/
structure Vec2d where
  x : Nat
  y : Nat
deriving DecidableEq, Repr

/-- Modelled from the spec: component-wise addition of `Vec2d`. -/
def Vec2d.add (a b : Vec2d) : Vec2d := ⟨a.x + b.x, a.y + b.y⟩

/-- Modelled from the spec: component-wise subtraction of `Vec2d`
(truncated at zero; the embedded code only subtracts where the Rust `u32`
subtraction cannot underflow). -/
def Vec2d.sub (a b : Vec2d) : Vec2d := ⟨a.x - b.x, a.y - b.y⟩

/-- Modelled from the spec: component-wise minimum of `Vec2d`. -/
def Vec2d.min (a b : Vec2d) : Vec2d := ⟨Nat.min a.x b.x, Nat.min a.y b.y⟩

/-- Modelled from the spec: `a.fits_inside(b) ≡ a.x ≤ b.x ∧ a.y ≤ b.y`. -/
def Vec2d.fits_inside (a b : Vec2d) : Bool :=
  decide (a.x ≤ b.x) && decide (a.y ≤ b.y)

/-- Embedding of `max_size_in_rect` from `src/lib.rs`: the maximal size a tile at
`position` can have in order to fit in a canvas of size `canvas_size`. -/
def max_size_in_rect (position tile_size canvas_size : Vec2d) : Vec2d :=
  Vec2d.sub (Vec2d.min (Vec2d.add position tile_size) canvas_size) position

/-- An RGBA pixel (`image::Rgba<u8>`); channel overflow plays no role in the
verified properties, so channels are plain naturals. -/
structure Rgba where
  r : Nat
  g : Nat
  b : Nat
  a : Nat
deriving DecidableEq, Repr

/-- A decoded pixel matrix (`image::DynamicImage`): dimensions plus a pixel
lookup function. -/
structure TileImage where
  width : Nat
  height : Nat
  pix : Nat → Nat → Rgba

/-- Embedding of `Tile` from `src/tile.rs`. -/
structure Tile where
  image : TileImage
  position : Vec2d
  icc_profile : Option (List Nat)
  exif_metadata : Option (List Nat)

/-- Embedding of `Tile::size` from `src/tile.rs`. -/
def Tile.size (t : Tile) : Vec2d := ⟨t.image.width, t.image.height⟩

/-- Embedding of `Tile::bottom_right` from `src/tile.rs`: `size() + position`. -/
def Tile.bottom_right (t : Tile) : Vec2d := Vec2d.add t.size t.position

/-- Embedding of `Tile::empty` from `src/tile.rs`: `DynamicImage::new_rgba8` creates an
all-zero image, and the empty tile carries no ICC profile or EXIF data. -/
def Tile.empty (position size : Vec2d) : Tile :=
  { image := { width := size.x, height := size.y, pix := fun _ _ => ⟨0, 0, 0, 0⟩ }
    position := position
    icc_profile := none
    exif_metadata := none }

/-- The generic in-memory canvas (`Canvas` in `src/encoder/canvas.rs`): a
pixel matrix of fixed dimensions, the output destination, and the captured
ICC profile. -/
structure Canvas where
  width : Nat
  height : Nat
  pix : Nat → Nat → Rgba
  destination : String
  icc_profile : Option (List Nat)

/-- Embedding of `Canvas::size`: the dimensions of the underlying image buffer. -/
def Canvas.size (c : Canvas) : Vec2d := ⟨c.width, c.height⟩

/-- Embedding of `ImageBuffer::put_pixel` on a functional pixel store. -/
def putPixel (img : Nat → Nat → Rgba) (px py : Nat) (v : Rgba) :
    Nat → Nat → Rgba :=
  fun x y => if x = px ∧ y = py then v else img x y

/-- The inner `for x in 0..size.x` loop of `Canvas::add_tile`: writes row
`ty` of the tile at offset `(ox, oy)` into the canvas pixel store. -/
def writeRow (tpix : Nat → Nat → Rgba) (ox oy ty n : Nat)
    (img : Nat → Nat → Rgba) : Nat → Nat → Rgba :=
  (List.range n).foldl (fun acc x => putPixel acc (x + ox) (ty + oy) (tpix x ty)) img

/-- The nested pixel-copy loops of `Canvas::add_tile`: writes the `w × h`
top-left region of the tile image at offset `(ox, oy)`. -/
def writeRect (tpix : Nat → Nat → Rgba) (ox oy w h : Nat)
    (img : Nat → Nat → Rgba) : Nat → Nat → Rgba :=
  (List.range h).foldl (fun acc ty => writeRow tpix ox oy ty w acc) img

/-- Embedding of `Canvas::add_tile` from `src/encoder/canvas.rs`: capture the ICC profile
from the first tile that has one, reject tiles whose position does not fit
inside the canvas, then copy the clipped tile rectangle pixel by pixel. -/
def Canvas.add_tile (c : Canvas) (tile : Tile) : Except String Canvas :=
  let c :=
    if c.icc_profile.isNone && tile.icc_profile.isSome then
      { c with icc_profile := tile.icc_profile }
    else c
  let min_pos := tile.position
  let canvas_size := c.size
  if !(Vec2d.fits_inside min_pos canvas_size) then
    Except.error "tile too large for image"
  else
    let max_pos := Vec2d.min tile.bottom_right canvas_size
    let size := Vec2d.sub max_pos min_pos
    Except.ok { c with pix := writeRect tile.image.pix min_pos.x min_pos.y size.x size.y c.pix }

/-- Observer: the canvas pixel store after `add_tile`, or the unchanged
store when `add_tile` errors. -/
def pixAfterAdd (c : Canvas) (tile : Tile) : Nat → Nat → Rgba :=
  match c.add_tile tile with
  | Except.ok c' => c'.pix
  | Except.error _ => c.pix

theorem putPixel_eval (img : Nat → Nat → Rgba) (px py x y : Nat) (v : Rgba) :
    putPixel img px py v x y = if x = px ∧ y = py then v else img x y := rfl

theorem writeRow_pix (tpix : Nat → Nat → Rgba) (ox oy ty : Nat) (n : Nat)
    (img : Nat → Nat → Rgba) (cx cy : Nat) :
    writeRow tpix ox oy ty n img cx cy =
      if cy = ty + oy ∧ ox ≤ cx ∧ cx < ox + n then tpix (cx - ox) ty
      else img cx cy := by
  induction n generalizing img with
  | zero =>
    simp only [writeRow, List.range_zero, List.foldl_nil]
    split
    · omega
    · rfl
  | succ n ih =>
    simp only [writeRow, List.range_succ, List.foldl_append, List.foldl_cons,
      List.foldl_nil]
    have hprev := ih img
    simp only [writeRow] at hprev
    rw [putPixel_eval, hprev]
    by_cases hx : cx = n + ox ∧ cy = ty + oy
    · have hcond : cy = ty + oy ∧ ox ≤ cx ∧ cx < ox + (n + 1) := by omega
      have hidx : cx - ox = n := by omega
      rw [if_pos hx, if_pos hcond, hidx]
    · by_cases hin : cy = ty + oy ∧ ox ≤ cx ∧ cx < ox + n
      · have hcond : cy = ty + oy ∧ ox ≤ cx ∧ cx < ox + (n + 1) := by omega
        rw [if_neg hx, if_pos hin, if_pos hcond]
      · have hcond : ¬(cy = ty + oy ∧ ox ≤ cx ∧ cx < ox + (n + 1)) := by omega
        rw [if_neg hx, if_neg hin, if_neg hcond]

theorem writeRect_pix (tpix : Nat → Nat → Rgba) (ox oy w h : Nat)
    (img : Nat → Nat → Rgba) (cx cy : Nat) :
    writeRect tpix ox oy w h img cx cy =
      if oy ≤ cy ∧ cy < oy + h ∧ ox ≤ cx ∧ cx < ox + w then
        tpix (cx - ox) (cy - oy)
      else img cx cy := by
  induction h generalizing img with
  | zero =>
    simp only [writeRect, List.range_zero, List.foldl_nil]
    split
    · omega
    · rfl
  | succ h ih =>
    simp only [writeRect, List.range_succ, List.foldl_append, List.foldl_cons,
      List.foldl_nil]
    have hprev := ih img
    simp only [writeRect] at hprev
    rw [writeRow_pix, hprev]
    by_cases hrow : cy = h + oy ∧ ox ≤ cx ∧ cx < ox + w
    · have hcond : oy ≤ cy ∧ cy < oy + (h + 1) ∧ ox ≤ cx ∧ cx < ox + w := by omega
      have hy : cy - oy = h := by omega
      rw [if_pos hrow, if_pos hcond, hy]
    · by_cases hin : oy ≤ cy ∧ cy < oy + h ∧ ox ≤ cx ∧ cx < ox + w
      · have hcond : oy ≤ cy ∧ cy < oy + (h + 1) ∧ ox ≤ cx ∧ cx < ox + w := by omega
        rw [if_neg hrow, if_pos hin, if_pos hcond]
      · have hcond : ¬(oy ≤ cy ∧ cy < oy + (h + 1) ∧ ox ≤ cx ∧ cx < ox + w) := by omega
        rw [if_neg hrow, if_neg hin, if_neg hcond]

/-- Modelled from the spec: `TileReference` lives in the dezoomer
framework module absent from this source snapshot; the spec defines it as
`{url, position}`, the position being the tile's top-left pixel on the
final canvas. -/
structure TileReference where
  url : String
  position : Vec2d
deriving DecidableEq, Repr

/-- Embedding of `TileDownloadError` from `src/errors.rs`: the failing tile reference
together with its cause (the cause plays no role in the verified
properties and is kept as its display message). -/
structure TileDownloadError where
  tile_reference : TileReference
  cause : String
deriving DecidableEq, Repr

/-- The error type `ZoomError` of `src/errors.rs`, restricted to the
variants the verified properties distinguish; all remaining variants are
collapsed into `other`. -/
inductive ZoomErr where
  | noLevels
  | noTile
  | partialDownload (successful_tiles total_tiles : Nat) (destination : String)
  | ioUnexpectedEof
  | other (msg : String)
deriving DecidableEq, Repr

/-- Embedding of `DownloadState` from `src/download_state.rs`: the running counters of
one zoom-level run. -/
structure DownloadState where
  total_tiles : Nat
  successful_tiles : Nat
  last_batch_count : Nat
  last_batch_successes : Nat
  tile_size : Option Vec2d
deriving DecidableEq, Repr

/-- Embedding of `DownloadState::new` (the `Default` instance: all counters zero). -/
def DownloadState.new : DownloadState :=
  { total_tiles := 0, successful_tiles := 0, last_batch_count := 0
    last_batch_successes := 0, tile_size := none }

/-- Embedding of `DownloadState::add_batch`. -/
def DownloadState.add_batch (s : DownloadState) (count : Nat) : DownloadState :=
  { s with last_batch_count := count
           total_tiles := s.total_tiles + count
           last_batch_successes := 0 }

/-- Embedding of `DownloadState::record_success`. -/
def DownloadState.record_success (s : DownloadState) : DownloadState :=
  { s with last_batch_successes := s.last_batch_successes + 1
           successful_tiles := s.successful_tiles + 1 }

/-- Embedding of `DownloadState::set_tile_size`. -/
def DownloadState.set_tile_size (s : DownloadState) (size : Vec2d) : DownloadState :=
  { s with tile_size := some size }

/-- Embedding of `DownloadState::is_successful`: `successful_tiles > 0`. -/
def DownloadState.is_successful (s : DownloadState) : Bool :=
  decide (0 < s.successful_tiles)

/-- Embedding of `DownloadState::has_partial_failure`:
`last_batch_successes < last_batch_count`. -/
def DownloadState.has_partial_failure (s : DownloadState) : Bool :=
  decide (s.last_batch_successes < s.last_batch_count)

/-- Embedding of `process_tile_result` from `src/download_state.rs`. The Rust function
mutates `tile_size` through a `&mut` reference; here the updated value is
returned as the second component. -/
def process_tile_result (tile_result : Except TileDownloadError Tile)
    (tile_size : Option Vec2d) (canvas_size : Option Vec2d) :
    (Option Tile × Bool) × Option Vec2d :=
  match tile_result with
  | Except.ok tile => ((some tile, true), some tile.size)
  | Except.error err =>
    let position := err.tile_reference.position
    let empty_tile :=
      match tile_size, canvas_size with
      | some current_tile_size, some current_canvas_size =>
        some (Tile.empty position
          (max_size_in_rect position current_tile_size current_canvas_size))
      | _, _ => none
    ((empty_tile, false), tile_size)

/-- The per-tile body of the `while let Some(tile_result) = stream.next()`
loop in `TileDownloadCoordinator::download_batch`
(`src/download_state.rs`): process the result, record the success, remember
the tile size, and add the produced tile (real or empty) to the canvas.
The canvas (`TileBuffer`, whose implementation file is not shipped in this
source snapshot) is abstracted as the list of tiles added to it. -/
def download_step (size_hint : Option Vec2d)
    (acc : DownloadState × List Tile)
    (tile_result : Except TileDownloadError Tile) : DownloadState × List Tile :=
  let res := process_tile_result tile_result acc.1.tile_size size_hint
  let tile := res.1.1
  let success := res.1.2
  let s1 : DownloadState := { acc.1 with tile_size := res.2 }
  let s2 :=
    if success then
      match tile with
      | some t => (s1.record_success).set_tile_size t.size
      | none => s1.record_success
    else s1
  let canvas :=
    match tile with
    | some t => acc.2 ++ [t]
    | none => acc.2
  (s2, canvas)

/-- Embedding of `TileDownloadCoordinator::download_batch` over the per-tile download
outcomes of one batch: `state.add_batch(len)` followed by the per-tile
loop. The order of the outcome list is the (unspecified) completion order
of the bounded-parallel downloads. -/
def download_batch (tile_results : List (Except TileDownloadError Tile))
    (size_hint : Option Vec2d) (state : DownloadState) (canvas : List Tile) :
    DownloadState × List Tile :=
  tile_results.foldl (download_step size_hint)
    (state.add_batch tile_results.length, canvas)

/-- Embedding of `validate_download_success` from `src/lib.rs`. -/
def validate_download_success (state : DownloadState) : Except ZoomErr Unit :=
  if !state.is_successful then Except.error ZoomErr.noTile else Except.ok ()

/-- Embedding of `determine_final_result` from `src/lib.rs`. -/
def determine_final_result (state : DownloadState) (destination : String) :
    Except ZoomErr Unit :=
  if state.has_partial_failure then
    Except.error (ZoomErr.partialDownload state.successful_tiles
      state.total_tiles destination)
  else Except.ok ()

/-- The observable outcome of one `dezoomify_level` run: the final counter
state, the tiles added to the canvas, whether `canvas.finalize()` was
reached, and the returned result. -/
structure LevelRunResult where
  state : DownloadState
  canvas : List Tile
  finalized : Bool
  result : Except ZoomErr Unit

/-- Embedding of `dezoomify_level` from `src/lib.rs`, driven over the per-batch download
outcomes. The `ZoomLevelIter` (whose implementation file is not shipped in
this source snapshot) is abstracted, per the spec, as the finite sequence
of tile-reference batches it produces before returning none; each batch is
represented by its per-tile download outcomes. After the loop the state is
validated (`NoTile` when nothing succeeded), the canvas is finalized, and
the final result is determined; `finish_level` is that tail of
`dezoomify_level`, for an arbitrary final (state, canvas) pair. -/
def finish_level (fin : DownloadState × List Tile) (destination : String) :
    LevelRunResult :=
  match validate_download_success fin.1 with
  | Except.error e =>
    { state := fin.1, canvas := fin.2, finalized := false, result := Except.error e }
  | Except.ok _ =>
    { state := fin.1, canvas := fin.2, finalized := true
      result := determine_final_result fin.1 destination }

/-- The driving loop of `dezoomify_level` followed by `finish_level`. -/
def dezoomify_level (batches : List (List (Except TileDownloadError Tile)))
    (size_hint : Option Vec2d) (destination : String) : LevelRunResult :=
  finish_level
    (batches.foldl
      (fun (acc : DownloadState × List Tile) batch =>
        download_batch batch size_hint acc.1 acc.2)
      (DownloadState.new, []))
    destination

/-- The `DownloadState`s reachable through the coordinator's operations:
starting from `DownloadState::new`, any `add_batch`, a `record_success` at
most once per tile of the current batch (so only while
`last_batch_successes < last_batch_count`), and `set_tile_size`. -/
inductive ReachableDownloadState : DownloadState → Prop where
  | init : ReachableDownloadState DownloadState.new
  | add_batch (s : DownloadState) (count : Nat) :
      ReachableDownloadState s → ReachableDownloadState (s.add_batch count)
  | record_success (s : DownloadState) :
      ReachableDownloadState s →
      s.last_batch_successes < s.last_batch_count →
      ReachableDownloadState s.record_success
  | set_tile_size (s : DownloadState) (size : Vec2d) :
      ReachableDownloadState s → ReachableDownloadState (s.set_tile_size size)

/-- Embedding of `resolve_level_index` from `src/lib.rs`: requested index when in
bounds, otherwise the last index. -/
def resolve_level_index (requested available_count : Nat) : Nat :=
  if requested < available_count then requested else available_count - 1

/-- Embedding of `resolve_image_index` from `src/lib.rs` (same logic for images). -/
def resolve_image_index (requested available_count : Nat) : Nat :=
  if requested < available_count then requested else available_count - 1

/-- Outcome of `choose_level` / `choose_image` over a list of `n`
candidates: the `NoLevels` error, the index handed to `swap_remove` (the
selected element), or the interactive / size-based fallback paths that the
verified properties do not exercise. -/
inductive ChooseOutcome where
  | noLevels
  | selected (idx : Nat)
  | fallback
deriving DecidableEq, Repr

/-- Embedding of `choose_level` from `src/lib.rs`, as a function of the number of
levels and the `--zoom-level` argument: empty list errors with `NoLevels`,
a single level is returned directly, otherwise an explicitly requested
index is resolved via `resolve_level_index`; the `best_size` and
interactive paths are the fallback. -/
def choose_level (count : Nat) (zoom_level : Option Nat) : ChooseOutcome :=
  match count, zoom_level with
  | 0, _ => ChooseOutcome.noLevels
  | 1, _ => ChooseOutcome.selected 0
  | n + 2, some requested =>
      ChooseOutcome.selected (resolve_level_index requested (n + 2))
  | _ + 2, none => ChooseOutcome.fallback

/-- Embedding of `choose_image` from `src/lib.rs`, as a function of the number of
images, the `--image-index` argument, and bulk mode: empty list errors
with `NoLevels`, a single image is returned directly, an explicitly
requested index is resolved via `resolve_image_index`, bulk mode
auto-selects index 0, and interactive selection is the fallback. -/
def choose_image (count : Nat) (image_index : Option Nat) (is_bulk_mode : Bool) :
    ChooseOutcome :=
  match count, image_index with
  | 0, _ => ChooseOutcome.noLevels
  | 1, _ => ChooseOutcome.selected 0
  | n + 2, some requested =>
      ChooseOutcome.selected (resolve_image_index requested (n + 2))
  | _ + 2, none =>
      if is_bulk_mode then ChooseOutcome.selected 0 else ChooseOutcome.fallback

/-- Check whether a `ZoomErr` is the `PartialDownload` variant (the
`Err(err @ ZoomError::PartialDownload { .. })` match arms of
`src/main.rs`). -/
def ZoomErr.isPartialDownload : ZoomErr → Bool
  | ZoomErr.partialDownload _ _ _ => true
  | _ => false

/-- Whether one single-mode iteration of `main` (`src/main.rs`) sets
`has_errors`: every error does, except the end-of-stdin
`Io { UnexpectedEof }` case which only breaks the loop. -/
def single_iteration_has_error (r : Except ZoomErr Unit) : Bool :=
  match r with
  | Except.ok _ => false
  | Except.error ZoomErr.ioUnexpectedEof => false
  | Except.error _ => true

/-- The process exit code of `main` in single-image mode
(`src/main.rs`), for a command-line invocation processing one image:
`std::process::exit(1)` when `has_errors` was set, implicit exit 0
otherwise. -/
def main_exit_code_single (r : Except ZoomErr Unit) : Nat :=
  if single_iteration_has_error r then 1 else 0

/-- Embedding of `error_count` of `process_bulk` in `src/main.rs`: the number of images
whose `dezoomify` call failed with an error other than `PartialDownload`
(partial downloads are counted as successes there). -/
def bulk_error_count (results : List (Except ZoomErr Unit)) : Nat :=
  results.countP (fun r =>
    match r with
    | Except.ok _ => false
    | Except.error e => !e.isPartialDownload)

/-- The process exit code of `main` in bulk mode (`src/main.rs`):
`process_bulk` returns an error iff `error_count > 0`, and `main` exits 1
exactly on that error. -/
def main_exit_code_bulk (results : List (Except ZoomErr Unit)) : Nat :=
  if 0 < bulk_error_count results then 1 else 0

/-- Modelled from the spec: `PageContents` lives in the dezoomer framework
module absent from this source snapshot; the spec defines it as the sum
type `{Unknown, Success(bytes), HttpError(status, message),
NetworkError(message)}` passed into dezoomers. -/
inductive PageContents where
  | unknown
  | success (bytes : List Nat)
  | httpError (status : Nat) (msg : String)
  | networkError (msg : String)
deriving DecidableEq, Repr

/-- Modelled from the spec: `DezoomerInput` lives in the dezoomer
framework module absent from this source snapshot; the spec defines it as
`{uri, contents}`. -/
structure DezoomerInput where
  uri : String
  contents : PageContents
deriving DecidableEq, Repr

/-- Embedding of `DezoomerError` from `src/errors.rs`. -/
inductive DezoomerError where
  | needsData (uri : String)
  | wrongDezoomer (name : String)
  | downloadError (msg : String)
  | otherError (msg : String)
deriving DecidableEq, Repr

/-- Check for the `NeedsData` variant of `DezoomerError`. -/
def DezoomerError.isNeedsData : DezoomerError → Bool
  | DezoomerError.needsData _ => true
  | _ => false

/-- Embedding of `get_dezoomer_result` from `src/lib.rs`: starting from
`{uri, contents: Unknown}`, invoke the dezoomer; on `NeedsData{uri}` fetch
that URI, place the bytes in `DezoomerInput.contents` and re-invoke the
same (stateful) dezoomer; on success or any other error, return. The Rust
loop has no bound; it is embedded with a fuel parameter, `none` standing
for a run that has not terminated within the fuel. -/
def get_dezoomer_result_loop {σ α : Type}
    (step : σ → DezoomerInput → σ × Except DezoomerError α)
    (fetch : String → PageContents) :
    Nat → σ → DezoomerInput → Option (Except DezoomerError α)
  | 0, _, _ => none
  | fuel + 1, s, i =>
    match step s i with
    | (_, Except.ok result) => some (Except.ok result)
    | (s', Except.error (DezoomerError.needsData uri)) =>
      get_dezoomer_result_loop step fetch fuel s'
        { uri := uri, contents := fetch uri }
    | (_, Except.error e) => some (Except.error e)

/-- Embedding of `get_dezoomer_result` proper: the loop started on
`{uri, contents: Unknown}`. -/
def get_dezoomer_result {σ α : Type}
    (step : σ → DezoomerInput → σ × Except DezoomerError α)
    (fetch : String → PageContents) (fuel : Nat) (s : σ) (uri : String) :
    Option (Except DezoomerError α) :=
  get_dezoomer_result_loop step fetch fuel s
    { uri := uri, contents := PageContents.unknown }

/-- A named candidate dezoomer of the auto-dezoomer, abstracted as its
name together with its `dezoomer_result` entry point. -/
structure NamedDezoomer (α : Type) where
  name : String
  run : DezoomerInput → Except DezoomerError α

/-- The outcome of one pass of the auto-dezoomer's candidate loop:
an early-returned success, or the kept candidates (those that asked for
data), the accumulated `(name, error)` pairs and the pending fetch URIs. -/
inductive AutoScanOutcome (α : Type) where
  | success (result : α)
  | done (kept : List (NamedDezoomer α))
         (errors : List (String × DezoomerError))
         (needs_uris : List String)

/-- The candidate loop of `AutoDezoomer::dezoomer_result`
(`src/auto.rs`): try each candidate in order; `Ok` returns immediately;
`NeedsData{uri}` records the URI (deduplicated) and keeps the candidate;
any other error records `(name, error)` and drops the candidate. -/
def auto_scan {α : Type} (data : DezoomerInput) :
    List (NamedDezoomer α) → List (String × DezoomerError) → List String →
    AutoScanOutcome α
  | [], errors, needs_uris => AutoScanOutcome.done [] errors needs_uris
  | d :: rest, errors, needs_uris =>
    match d.run data with
    | Except.ok result => AutoScanOutcome.success result
    | Except.error (DezoomerError.needsData uri) =>
      let needs_uris' := if needs_uris.contains uri then needs_uris
                         else needs_uris ++ [uri]
      match auto_scan data rest errors needs_uris' with
      | AutoScanOutcome.success result => AutoScanOutcome.success result
      | AutoScanOutcome.done kept errors' needs_uris'' =>
        AutoScanOutcome.done (d :: kept) errors' needs_uris''
    | Except.error e => auto_scan data rest (errors ++ [(d.name, e)]) needs_uris

/-- The result of `AutoDezoomer::dezoomer_result`: an underlying
dezoomer's success, a surfaced `NeedsData`, or the single aggregated
`AutoDezoomerError` listing each failed driver's name and error. -/
inductive AutoDezoomerOutput (α : Type) where
  | result (r : α)
  | needsData (uri : String)
  | aggregatedError (errors : List (String × DezoomerError))
deriving Repr

/-- Embedding of `AutoDezoomer::dezoomer_result` from `src/auto.rs`: run the candidate
loop, then pop (from the back, as `Vec::pop` does) one pending fetch URI if
any remains, and otherwise fail with the aggregated error. `errors0` and
`needs_uris0` are the accumulator fields of the `AutoDezoomer` struct at
the start of the call (both empty on a fresh `AutoDezoomer`). -/
def auto_dezoomer_result {α : Type} (data : DezoomerInput)
    (dezoomers : List (NamedDezoomer α))
    (errors0 : List (String × DezoomerError)) (needs_uris0 : List String) :
    AutoDezoomerOutput α :=
  match auto_scan data dezoomers errors0 needs_uris0 with
  | AutoScanOutcome.success r => AutoDezoomerOutput.result r
  | AutoScanOutcome.done _ errors needs_uris =>
    match needs_uris.getLast? with
    | some uri => AutoDezoomerOutput.needsData uri
    | none => AutoDezoomerOutput.aggregatedError errors

/-- The URL-substring prioritisation table of
`prioritize_dezoomers_for_url` (`src/auto.rs`), in source order. -/
def dezoomer_patterns : List (String × String) :=
  [("info.json", "iiif"),
   ("iiif", "iiif"),
   ("manifest.json", "iiif"),
   (".dzi", "deepzoom"),
   ("_files/", "deepzoom"),
   ("?FIF", "IIPImage"),
   ("tiles.xml", "krpano"),
   ("ImageProperties.xml", "zoomify"),
   ("TileGroup", "zoomify"),
   ("digitalcollections.nypl.org", "nypl"),
   ("\x7b\x7b", "generic")]

/-- Check whether the first character list starts with the second. -/
def list_starts_with : List Char → List Char → Bool
  | [], _ => true
  | _ :: _, [] => false
  | p :: ps, c :: cs => p == c && list_starts_with ps cs

/-- Check whether `p` occurs as a contiguous sublist. -/
def list_contains_sub (p : List Char) : List Char → Bool
  | [] => p.isEmpty
  | c :: cs => list_starts_with p (c :: cs) || list_contains_sub p cs

/-- Embedding of `str::contains` on substrings, via character lists. -/
def url_contains (url pattern : String) : Bool :=
  list_contains_sub pattern.toList url.toList

/-- Modelled from the spec: the registry order of `all_dezoomers(false)`
in `src/auto.rs`, by dezoomer name — the name strings of the individual
drivers live in per-format modules absent from this source snapshot; the
names in the prioritisation table ("iiif", "deepzoom", "IIPImage",
"krpano", "zoomify", "nypl", "generic") are fixed by `src/auto.rs` and its
unit tests, the remaining ones ("custom", "google_arts_and_culture",
"pff", "bulk") only need to differ from them. -/
def all_dezoomer_names : List String :=
  ["custom", "google_arts_and_culture", "zoomify", "iiif", "deepzoom",
   "generic", "pff", "krpano", "IIPImage", "nypl", "bulk"]

/-- Remove the first list element equal to `name`, returning `none` when
absent (the `iter().position` + `remove(idx)` steps of
`prioritize_dezoomers_for_url`). -/
def remove_first_by_name (name : String) : List String → Option (List String)
  | [] => none
  | d :: rest =>
    if d = name then some rest
    else (remove_first_by_name name rest).map (fun r => d :: r)

/-- Embedding of `prioritize_dezoomers_for_url` from `src/auto.rs`: find the first
pattern contained in the URL; when its preferred dezoomer occurs in the
list, remove it and reinsert it at the front; otherwise (and when no
pattern matches) leave the list unchanged. -/
def prioritize_dezoomers_for_url (url : String) (dezoomers : List String) :
    List String :=
  match dezoomer_patterns.find? (fun p => url_contains url p.1) with
  | none => dezoomers
  | some p =>
    match remove_first_by_name p.2 dezoomers with
    | none => dezoomers
    | some rest => p.2 :: rest

theorem add_tile_eq_of_fits (c : Canvas) (t : Tile)
    (h : Vec2d.fits_inside t.position c.size = true) :
    c.add_tile t = Except.ok
      { width := c.width
        height := c.height
        pix := writeRect t.image.pix t.position.x t.position.y
          (Nat.min (t.image.width + t.position.x) c.width - t.position.x)
          (Nat.min (t.image.height + t.position.y) c.height - t.position.y)
          c.pix
        destination := c.destination
        icc_profile :=
          if c.icc_profile.isNone && t.icc_profile.isSome then t.icc_profile
          else c.icc_profile } := by
  unfold Canvas.add_tile
  by_cases hicc : (c.icc_profile.isNone && t.icc_profile.isSome) = true <;>
    simp [hicc, h, Canvas.size, Vec2d.min, Vec2d.sub, Vec2d.add,
      Tile.bottom_right, Tile.size] at h ⊢

theorem add_tile_eq_of_not_fits (c : Canvas) (t : Tile)
    (h : Vec2d.fits_inside t.position c.size = false) :
    c.add_tile t = Except.error "tile too large for image" := by
  unfold Canvas.add_tile
  by_cases hicc : (c.icc_profile.isNone && t.icc_profile.isSome) = true <;>
    simp [hicc, h, Canvas.size] at h ⊢

/-- C3: for every tile `t` and every generic in-memory canvas `c` whose
size has been set, `add_tile(c, t)` succeeds if and only if
`t.position.fits_inside(c.size())` (componentwise `position.x ≤ size.x`
and `position.y ≤ size.y`); when the position does not fit inside the
canvas, `add_tile` returns an error. -/
theorem add_tile_succeeds_iff_fits (c : Canvas) (t : Tile) :
    ((c.add_tile t).isOk = true ↔ Vec2d.fits_inside t.position c.size = true) ∧
    (Vec2d.fits_inside t.position c.size = false →
      c.add_tile t = Except.error "tile too large for image") := by
  constructor
  · cases hfits : Vec2d.fits_inside t.position c.size with
    | true => rw [add_tile_eq_of_fits c t hfits]; simp [Except.isOk, Except.toBool]
    | false => rw [add_tile_eq_of_not_fits c t hfits]; simp [Except.isOk, Except.toBool]
  · intro hfits
    exact add_tile_eq_of_not_fits c t hfits

def w4canvas : Canvas :=
  { width := 4, height := 4, pix := fun _ _ => ⟨1, 1, 1, 1⟩
    destination := "w4.png", icc_profile := none }

def w4tile : Tile :=
  { image := { width := 3, height := 3, pix := fun _ _ => ⟨2, 2, 2, 2⟩ }
    position := ⟨2, 2⟩, icc_profile := none, exif_metadata := none }

def w3tile_outside : Tile := Tile.empty ⟨5, 0⟩ ⟨1, 1⟩

/-- Witness for C3: a 3×3 tile at (2,2) fits inside a 4×4 canvas and is
accepted; a tile at x = 5 does not fit and is rejected. -/
theorem add_tile_succeeds_iff_fits_witness :
    (w4canvas.add_tile w4tile).isOk = true ∧
    w4canvas.add_tile w3tile_outside = Except.error "tile too large for image" :=
  ⟨(add_tile_succeeds_iff_fits w4canvas w4tile).1.mpr (by decide),
   (add_tile_succeeds_iff_fits w4canvas w3tile_outside).2 (by decide)⟩

/-- C4: for every tile whose position fits inside the canvas, a successful
`add_tile` on the generic in-memory canvas writes exactly the pixels of
the intersection of the tile's rectangle with the canvas — a tile
extending past the canvas is clipped to that intersection, a tile exactly
at the canvas edge is written in full — and every canvas pixel outside
the intersection keeps its previous value. -/
theorem add_tile_writes_clipped_intersection (c : Canvas) (t : Tile)
    (h : Vec2d.fits_inside t.position c.size = true) :
    (c.add_tile t).isOk = true ∧
    ∀ cx cy, pixAfterAdd c t cx cy =
      if t.position.x ≤ cx ∧ cx < Nat.min (t.image.width + t.position.x) c.width ∧
         t.position.y ≤ cy ∧ cy < Nat.min (t.image.height + t.position.y) c.height then
        t.image.pix (cx - t.position.x) (cy - t.position.y)
      else c.pix cx cy := by
  have heq := add_tile_eq_of_fits c t h
  have hpix : pixAfterAdd c t =
      writeRect t.image.pix t.position.x t.position.y
        (Nat.min (t.image.width + t.position.x) c.width - t.position.x)
        (Nat.min (t.image.height + t.position.y) c.height - t.position.y)
        c.pix := by
    unfold pixAfterAdd
    rw [heq]
  constructor
  · rw [heq]; rfl
  · intro cx cy
    rw [hpix, writeRect_pix]
    have hiff :
        (t.position.y ≤ cy ∧
          cy < t.position.y +
            (Nat.min (t.image.height + t.position.y) c.height - t.position.y) ∧
         t.position.x ≤ cx ∧
          cx < t.position.x +
            (Nat.min (t.image.width + t.position.x) c.width - t.position.x)) ↔
        (t.position.x ≤ cx ∧
          cx < Nat.min (t.image.width + t.position.x) c.width ∧
         t.position.y ≤ cy ∧
          cy < Nat.min (t.image.height + t.position.y) c.height) := by
      omega
    rw [if_congr hiff rfl rfl]

/-- Witness for C4: the 3×3 tile at (2,2) on the 4×4 canvas is accepted,
pixel (3,3) (inside the clipped intersection) takes the tile value, and
pixel (0,0) (outside it) keeps the canvas value. -/
theorem add_tile_writes_clipped_intersection_witness :
    (w4canvas.add_tile w4tile).isOk = true ∧
    pixAfterAdd w4canvas w4tile 3 3 = ⟨2, 2, 2, 2⟩ ∧
    pixAfterAdd w4canvas w4tile 0 0 = ⟨1, 1, 1, 1⟩ := by
  have h := add_tile_writes_clipped_intersection w4canvas w4tile (by decide)
  refine ⟨h.1, ?_, ?_⟩
  · rw [h.2 3 3]; decide
  · rw [h.2 0 0]; decide

theorem reachable_state_strong_invariant (s : DownloadState)
    (h : ReachableDownloadState s) :
    s.successful_tiles + s.last_batch_count ≤
      s.total_tiles + s.last_batch_successes ∧
    s.last_batch_successes ≤ s.last_batch_count := by
  induction h with
  | init => simp [DownloadState.new]
  | add_batch s count _ ih =>
    simp only [DownloadState.add_batch] at *
    omega
  | record_success s _ hlt ih =>
    simp only [DownloadState.record_success] at *
    omega
  | set_tile_size s size _ ih =>
    simpa [DownloadState.set_tile_size] using ih

/-- C7: for every `DownloadState` reachable from the initial state through
the coordinator's operations (`add_batch` with the batch's tile count,
then at most one `record_success` per tile of that batch), the invariants
`successful_tiles ≤ total_tiles` and
`last_batch_successes ≤ last_batch_count` hold. -/
theorem download_state_counter_invariants (s : DownloadState)
    (h : ReachableDownloadState s) :
    s.successful_tiles ≤ s.total_tiles ∧
    s.last_batch_successes ≤ s.last_batch_count := by
  have hstrong := reachable_state_strong_invariant s h
  omega

/-- Witness for C7: the state after `add_batch 2` and one `record_success`
is reachable and satisfies both invariants. -/
theorem download_state_counter_invariants_witness :
    ((DownloadState.new.add_batch 2).record_success).successful_tiles ≤
      ((DownloadState.new.add_batch 2).record_success).total_tiles ∧
    ((DownloadState.new.add_batch 2).record_success).last_batch_successes ≤
      ((DownloadState.new.add_batch 2).record_success).last_batch_count :=
  download_state_counter_invariants _
    (ReachableDownloadState.record_success _
      (ReachableDownloadState.add_batch _ 2 ReachableDownloadState.init)
      (by decide))

theorem finish_level_spec (fwithout : DownloadState × List Tile) (dest : String) :
    (finish_level fwithout dest).state = fwithout.1 ∧
    (finish_level fwithout dest).canvas = fwithout.2 ∧
    (finish_level fwithout dest).finalized =
      decide (0 < fwithout.1.successful_tiles) ∧
    (finish_level fwithout dest).result =
      (if 0 < fwithout.1.successful_tiles then
        determine_final_result fwithout.1 dest
       else Except.error ZoomErr.noTile) := by
  unfold finish_level validate_download_success DownloadState.is_successful
  by_cases h : 0 < fwithout.1.successful_tiles <;> simp [h]

/-- C6: after the download phase ends (the batch sequence is exhausted),
`dezoomify_level` fails with the fatal `NoTile` error — without finalizing
the canvas — exactly when `successful_tiles = 0`; with at least one
success, the run proceeds to finalization. -/
theorem no_successful_tiles_fatal_no_tile
    (batches : List (List (Except TileDownloadError Tile)))
    (size_hint : Option Vec2d) (destination : String) :
    ((dezoomify_level batches size_hint destination).state.successful_tiles = 0 →
      (dezoomify_level batches size_hint destination).result =
        Except.error ZoomErr.noTile ∧
      (dezoomify_level batches size_hint destination).finalized = false) ∧
    (0 < (dezoomify_level batches size_hint destination).state.successful_tiles →
      (dezoomify_level batches size_hint destination).finalized = true) := by
  unfold dezoomify_level
  generalize batches.foldl
    (fun (acc : DownloadState × List Tile) batch =>
      download_batch batch size_hint acc.1 acc.2)
    (DownloadState.new, []) = fin
  obtain ⟨hs, _, hf, hr⟩ := finish_level_spec fin destination
  constructor
  · intro h0
    rw [hs] at h0
    refine ⟨?_, ?_⟩
    · rw [hr, if_neg (by omega)]
    · rw [hf]
      simp [h0]
  · intro hpos
    rw [hs] at hpos
    rw [hf]
    simp [hpos]

/-- Witness for C6: an empty run fails with `NoTile` and is not finalized;
a run with one successful tile is finalized. -/
theorem no_successful_tiles_fatal_no_tile_witness :
    ((dezoomify_level [] none "empty.png").result = Except.error ZoomErr.noTile ∧
     (dezoomify_level [] none "empty.png").finalized = false) ∧
    (dezoomify_level [[Except.ok w4tile]] none "one.png").finalized = true :=
  ⟨(no_successful_tiles_fatal_no_tile [] none "empty.png").1 rfl,
   (no_successful_tiles_fatal_no_tile [[Except.ok w4tile]] none "one.png").2
     (by decide)⟩

/-- C5: for every failed tile download processed by the coordinator, when
both a previously observed `tile_size` and the level's canvas size hint
are known, an all-zero empty tile of size
`max_size_in_rect(position, tile_size, canvas_size)` is produced at the
failing tile's position and added to the canvas; when either size is
unknown, no tile is added; and a failed download never changes the
success counters. -/
theorem failed_tile_empty_replacement (size_hint : Option Vec2d)
    (s : DownloadState) (canvas : List Tile) (err : TileDownloadError) :
    (∀ tsz csz, s.tile_size = some tsz → size_hint = some csz →
      download_step size_hint (s, canvas) (Except.error err) =
        (s, canvas ++ [Tile.empty err.tile_reference.position
            (max_size_in_rect err.tile_reference.position tsz csz)])) ∧
    (s.tile_size = none ∨ size_hint = none →
      download_step size_hint (s, canvas) (Except.error err) = (s, canvas)) ∧
    (∀ pos sz x y, (Tile.empty pos sz).image.pix x y = ⟨0, 0, 0, 0⟩) ∧
    (download_step size_hint (s, canvas) (Except.error err)).1 = s := by
  have hstep : ∀ hint : Option Vec2d,
      download_step hint (s, canvas) (Except.error err) =
        (s, match s.tile_size, hint with
            | some tsz, some csz =>
              canvas ++ [Tile.empty err.tile_reference.position
                (max_size_in_rect err.tile_reference.position tsz csz)]
            | _, _ => canvas) := by
    intro hint
    cases hts : s.tile_size with
    | none =>
      cases hint <;>
        · simp only [download_step, process_tile_result, hts]
          rw [← hts]
          simp
    | some tsz =>
      cases hint <;>
        · simp only [download_step, process_tile_result, hts]
          rw [← hts]
          simp
  refine ⟨?_, ?_, fun pos sz x y => rfl, ?_⟩
  · intro tsz csz hts hcs
    rw [hstep size_hint, hts, hcs]
  · intro hnone
    rw [hstep size_hint]
    rcases hnone with hts | hcs
    · rw [hts]
    · rw [hcs]
      cases s.tile_size <;> rfl
  · rw [hstep size_hint]

def w5state : DownloadState :=
  { total_tiles := 2, successful_tiles := 1, last_batch_count := 2
    last_batch_successes := 1, tile_size := some ⟨2, 2⟩ }

def w5err : TileDownloadError :=
  { tile_reference := { url := "http://example.com/tile_1_1.jpg"
                        position := ⟨1, 1⟩ }
    cause := "HTTP 500" }

/-- Witness for C5: with tile size (2,2) known and canvas hint (3,3), a
failed download at (1,1) yields an all-zero empty tile of size
`max_size_in_rect((1,1),(2,2),(3,3))`, appended to the canvas, with the
state unchanged. -/
theorem failed_tile_empty_replacement_witness :
    download_step (some ⟨3, 3⟩) (w5state, []) (Except.error w5err) =
      (w5state, [Tile.empty ⟨1, 1⟩ (max_size_in_rect ⟨1, 1⟩ ⟨2, 2⟩ ⟨3, 3⟩)]) ∧
    (Tile.empty ⟨1, 1⟩ ⟨2, 2⟩).image.pix 0 0 = ⟨0, 0, 0, 0⟩ :=
  ⟨(failed_tile_empty_replacement (some ⟨3, 3⟩) w5state [] w5err).1
      ⟨2, 2⟩ ⟨3, 3⟩ rfl rfl,
   (failed_tile_empty_replacement (some ⟨3, 3⟩) w5state [] w5err).2.2.1
      ⟨1, 1⟩ ⟨2, 2⟩ 0 0⟩

/-- C10: for every non-empty list of `n` zoom levels (or images) and
explicitly requested index `i`, the `i`-th element is selected when
`i < n` and the last element (index `n − 1`) when `i ≥ n`; `NoLevels` is
raised only for an empty list. -/
theorem requested_index_clamped_selection (n i : Nat) (b : Bool) (hn : 0 < n) :
    choose_level n (some i) = ChooseOutcome.selected (if i < n then i else n - 1) ∧
    choose_image n (some i) b =
      ChooseOutcome.selected (if i < n then i else n - 1) ∧
    choose_level 0 (some i) = ChooseOutcome.noLevels ∧
    choose_image 0 (some i) b = ChooseOutcome.noLevels ∧
    (∀ m, choose_level m (some i) = ChooseOutcome.noLevels → m = 0) := by
  refine ⟨?_, ?_, rfl, rfl, ?_⟩
  · match n, hn with
    | 1, _ =>
      have h0 : (if i < 1 then i else 1 - 1) = 0 := by
        split <;> omega
      rw [h0]
      rfl
    | m + 2, _ => rfl
  · match n, hn with
    | 1, _ =>
      have h0 : (if i < 1 then i else 1 - 1) = 0 := by
        split <;> omega
      rw [h0]
      rfl
    | m + 2, _ => rfl
  · intro m hm
    match m with
    | 0 => rfl
    | 1 => exact absurd hm (by simp [choose_level])
    | k + 2 => exact absurd hm (by simp [choose_level])

/-- Witness for C10: with three levels, requested index 5 selects the last
level (index 2) and requested index 1 selects image 1. -/
theorem requested_index_clamped_selection_witness :
    choose_level 3 (some 5) = ChooseOutcome.selected 2 ∧
    choose_image 3 (some 1) true = ChooseOutcome.selected 1 := by
  have h5 := requested_index_clamped_selection 3 5 true (by decide)
  have h1 := requested_index_clamped_selection 3 1 true (by decide)
  exact ⟨by simpa using h5.1, by simpa using h1.2.1⟩

theorem determine_final_result_spec (s : DownloadState) (dest : String) :
    (determine_final_result s dest =
       Except.error (ZoomErr.partialDownload s.successful_tiles s.total_tiles dest) ↔
     s.last_batch_successes < s.last_batch_count) ∧
    (determine_final_result s dest = Except.ok () ↔
     s.last_batch_count ≤ s.last_batch_successes) := by
  unfold determine_final_result DownloadState.has_partial_failure
  by_cases hp : s.last_batch_successes < s.last_batch_count
  · refine ⟨by simp [hp], ?_⟩
    refine iff_of_false (by simp [hp]) (by omega)
  · refine ⟨?_, by simp [hp]; omega⟩
    refine iff_of_false (by simp [hp]) (by omega)

def c1batches : List (List (Except TileDownloadError Tile)) :=
  [[Except.error w5err, Except.ok w4tile], [Except.ok w4tile]]

/-- Counterexample to C1 as stated: a two-batch run in which the first
batch has a failed tile but the final batch fully succeeds ends with
`successful_tiles = 2 < 3 = total_tiles`, yet `dezoomify_level` returns
success rather than a `PartialDownload` error, because
`has_partial_failure` only inspects the last batch's counters. -/
theorem partial_download_whole_run_cex :
    (dezoomify_level c1batches (some ⟨10, 10⟩) "out.png").state.successful_tiles = 2 ∧
    (dezoomify_level c1batches (some ⟨10, 10⟩) "out.png").state.total_tiles = 3 ∧
    (dezoomify_level c1batches (some ⟨10, 10⟩) "out.png").result = Except.ok () :=
  ⟨rfl, rfl, rfl⟩

/-- C1 (amended): for every zoom-level run ending with at least one
successful tile, the canvas is finalized before the result is returned,
and `dezoomify_level` returns the `PartialDownload` error carrying
`{successful_tiles, total_tiles, destination}` if and only if the *last
batch* had a failure (`last_batch_successes < last_batch_count`); it
returns success if and only if the last batch fully succeeded. -/
theorem dezoomify_level_partial_iff_last_batch
    (batches : List (List (Except TileDownloadError Tile)))
    (size_hint : Option Vec2d) (destination : String)
    (h : 0 < (dezoomify_level batches size_hint destination).state.successful_tiles) :
    (dezoomify_level batches size_hint destination).finalized = true ∧
    ((dezoomify_level batches size_hint destination).result =
        Except.error (ZoomErr.partialDownload
          (dezoomify_level batches size_hint destination).state.successful_tiles
          (dezoomify_level batches size_hint destination).state.total_tiles
          destination) ↔
      (dezoomify_level batches size_hint destination).state.last_batch_successes <
        (dezoomify_level batches size_hint destination).state.last_batch_count) ∧
    ((dezoomify_level batches size_hint destination).result = Except.ok () ↔
      (dezoomify_level batches size_hint destination).state.last_batch_count ≤
        (dezoomify_level batches size_hint destination).state.last_batch_successes) := by
  unfold dezoomify_level at h ⊢
  generalize hF : batches.foldl
    (fun (acc : DownloadState × List Tile) batch =>
      download_batch batch size_hint acc.1 acc.2)
    (DownloadState.new, []) = fin at h ⊢
  obtain ⟨hs, _, hf, hr⟩ := finish_level_spec fin destination
  rw [hs] at h
  rw [hs, hf, hr, if_pos h]
  exact ⟨by simp [h], (determine_final_result_spec fin.1 destination).1,
    (determine_final_result_spec fin.1 destination).2⟩

def w1batches : List (List (Except TileDownloadError Tile)) :=
  [[Except.error w5err, Except.ok w4tile]]

/-- Witness for C1 (amended): a single-batch run with one failure and one
success is finalized and returns `PartialDownload` with counters 1 of 2. -/
theorem dezoomify_level_partial_iff_last_batch_witness :
    (dezoomify_level w1batches none "w1.png").finalized = true ∧
    (dezoomify_level w1batches none "w1.png").result =
      Except.error (ZoomErr.partialDownload 1 2 "w1.png") := by
  have h := dezoomify_level_partial_iff_last_batch w1batches none "w1.png" (by decide)
  exact ⟨h.1, h.2.1.mpr (by decide)⟩

/-- Counterexample to C2 as stated: a bulk run whose single image ends in
a partial download exits with code 0, not a non-zero code, because
`process_bulk` in `src/main.rs` counts partial downloads as successes. -/
theorem bulk_partial_download_exit_zero_cex :
    main_exit_code_bulk
      [Except.error (ZoomErr.partialDownload 1 2 "bulk_0001.jpg")] = 0 := rfl

/-- C2 (amended): in single-image mode the process exits 0 exactly on
success or on reaching end of stdin, and 1 on any failure including a
partial download; in bulk mode it exits 0 exactly when every per-image
error (if any) is a `PartialDownload` — partial downloads are counted as
successes there, and only other failures force a non-zero exit. -/
theorem exit_code_determination (r : Except ZoomErr Unit)
    (results : List (Except ZoomErr Unit)) :
    (main_exit_code_single r = 0 ↔
      (r = Except.ok () ∨ r = Except.error ZoomErr.ioUnexpectedEof)) ∧
    (main_exit_code_bulk results = 0 ↔
      ∀ e : ZoomErr, Except.error e ∈ results → e.isPartialDownload = true) := by
  constructor
  · cases r with
    | ok u => cases u; simp [main_exit_code_single, single_iteration_has_error]
    | error e =>
      cases e <;> simp [main_exit_code_single, single_iteration_has_error]
  · have hcount : main_exit_code_bulk results = 0 ↔ bulk_error_count results = 0 := by
      unfold main_exit_code_bulk
      split <;> simp <;> omega
    rw [hcount]
    unfold bulk_error_count
    rw [List.countP_eq_zero]
    constructor
    · intro h e he
      have := h (Except.error e) he
      simpa using this
    · intro h r' hr'
      cases r' with
      | ok u => simp
      | error e => simpa using h e hr'

/-- Witness for C2 (amended): a successful single run exits 0, and a bulk
run with one success and one partial download exits 0. -/
theorem exit_code_determination_witness :
    main_exit_code_single (Except.ok ()) = 0 ∧
    main_exit_code_bulk
      [Except.ok (), Except.error (ZoomErr.partialDownload 1 2 "b.jpg")] = 0 := by
  refine ⟨(exit_code_determination (Except.ok ()) []).1.mpr (Or.inl rfl), ?_⟩
  refine (exit_code_determination (Except.ok ())
    [Except.ok (), Except.error (ZoomErr.partialDownload 1 2 "b.jpg")]).2.mpr ?_
  intro e he
  simp at he
  subst he
  rfl

/-- C8: for every URI containing a substring of the prioritisation table
(taking the first matching row in table order, as the code does), the
first dezoomer tried after prioritisation is that row's preferred
dezoomer, the remaining candidates keep their registry order, and a URI
matching no row leaves the order unchanged. -/
theorem prioritization_table_first (url : String) :
    (∀ pat preferred,
      dezoomer_patterns.find? (fun p => url_contains url p.1) =
        some (pat, preferred) →
      prioritize_dezoomers_for_url url all_dezoomer_names =
        preferred :: all_dezoomer_names.erase preferred ∧
      (prioritize_dezoomers_for_url url all_dezoomer_names).head? =
        some preferred) ∧
    (dezoomer_patterns.find? (fun p => url_contains url p.1) = none →
      prioritize_dezoomers_for_url url all_dezoomer_names =
        all_dezoomer_names) := by
  constructor
  · intro pat preferred hfind
    have hmem : (pat, preferred) ∈ dezoomer_patterns :=
      List.mem_of_find?_eq_some hfind
    unfold prioritize_dezoomers_for_url
    rw [hfind]
    simp only [dezoomer_patterns, List.mem_cons, List.mem_singleton,
      Prod.mk.injEq, List.not_mem_nil, or_false] at hmem
    rcases hmem with hq | hq | hq | hq | hq | hq | hq | hq | hq | hq | hq <;>
      obtain ⟨rfl, rfl⟩ := hq <;>
      exact ⟨by decide, by decide⟩
  · intro hfind
    unfold prioritize_dezoomers_for_url
    rw [hfind]

/-- Witness for C8: a URL containing ".dzi" puts the "deepzoom" dezoomer
first and keeps the rest of the registry order. -/
theorem prioritization_table_first_witness :
    prioritize_dezoomers_for_url "https://a.b/c.dzi" all_dezoomer_names =
      "deepzoom" :: all_dezoomer_names.erase "deepzoom" ∧
    (prioritize_dezoomers_for_url "https://a.b/c.dzi" all_dezoomer_names).head? =
      some "deepzoom" :=
  (prioritization_table_first "https://a.b/c.dzi").1 ".dzi" "deepzoom" (by decide)

theorem get_dezoomer_result_loop_no_needs_data {σ α : Type}
    (step : σ → DezoomerInput → σ × Except DezoomerError α)
    (fetch : String → PageContents) (fuel : Nat) (s : σ) (i : DezoomerInput)
    (uri : String) :
    get_dezoomer_result_loop step fetch fuel s i ≠
      some (Except.error (DezoomerError.needsData uri)) := by
  induction fuel generalizing s i with
  | zero => simp [get_dezoomer_result_loop]
  | succ fuel ih =>
    unfold get_dezoomer_result_loop
    rcases hstep : step s i with ⟨s', r⟩
    cases r with
    | ok v => simp
    | error e =>
      cases e with
      | needsData u => exact ih s' _
      | wrongDezoomer nm => simp
      | downloadError m => simp
      | otherError m => simp

theorem auto_scan_all_fail {α : Type} (data : DezoomerInput)
    (l : List (NamedDezoomer α)) (errOf : NamedDezoomer α → DezoomerError) :
    ∀ (errors : List (String × DezoomerError)) (needs_uris : List String),
    (∀ d ∈ l, d.run data = Except.error (errOf d) ∧
      (errOf d).isNeedsData = false) →
    auto_scan data l errors needs_uris =
      AutoScanOutcome.done [] (errors ++ l.map (fun d => (d.name, errOf d)))
        needs_uris := by
  induction l with
  | nil =>
    intro errors needs_uris _
    simp [auto_scan]
  | cons d rest ih =>
    intro errors needs_uris h
    obtain ⟨hrun, hnd⟩ := h d (by simp)
    have hrest : ∀ d' ∈ rest, d'.run data = Except.error (errOf d') ∧
        (errOf d').isNeedsData = false :=
      fun d' hd' => h d' (by simp [hd'])
    cases he : errOf d with
    | needsData u =>
      rw [he] at hnd
      simp [DezoomerError.isNeedsData] at hnd
    | wrongDezoomer nm =>
      simp only [auto_scan, hrun, he]
      rw [ih (errors ++ [(d.name, DezoomerError.wrongDezoomer nm)]) needs_uris hrest]
      simp [he]
    | downloadError m =>
      simp only [auto_scan, hrun, he]
      rw [ih (errors ++ [(d.name, DezoomerError.downloadError m)]) needs_uris hrest]
      simp [he]
    | otherError m =>
      simp only [auto_scan, hrun, he]
      rw [ih (errors ++ [(d.name, DezoomerError.otherError m)]) needs_uris hrest]
      simp [he]

/-- C9: a `NeedsData` error never surfaces above the registry driver
loop (`get_dezoomer_result` re-invokes the dezoomer, feeding it the
fetched bytes, until success or a non-`NeedsData` error), and when every
candidate of the auto-dezoomer fails with a non-`NeedsData` error and no
pending fetch remains, the auto-dezoomer returns one aggregated error
listing each failed driver's name and error. -/
theorem needs_data_confined_and_errors_aggregated (σ α : Type) :
    (∀ (step : σ → DezoomerInput → σ × Except DezoomerError α)
       (fetch : String → PageContents) (fuel : Nat) (s : σ) (uri0 uri : String),
       get_dezoomer_result step fetch fuel s uri0 ≠
         some (Except.error (DezoomerError.needsData uri))) ∧
    (∀ (data : DezoomerInput) (dezoomers : List (NamedDezoomer α))
       (errOf : NamedDezoomer α → DezoomerError),
       (∀ d ∈ dezoomers, d.run data = Except.error (errOf d) ∧
          (errOf d).isNeedsData = false) →
       auto_dezoomer_result data dezoomers [] [] =
         AutoDezoomerOutput.aggregatedError
           (dezoomers.map (fun d => (d.name, errOf d)))) := by
  constructor
  · intro step fetch fuel s uri0 uri
    exact get_dezoomer_result_loop_no_needs_data step fetch fuel s _ uri
  · intro data dezoomers errOf h
    unfold auto_dezoomer_result
    rw [auto_scan_all_fail data dezoomers errOf [] [] h]
    rfl

def w9data : DezoomerInput := { uri := "http://x/meta", contents := PageContents.unknown }

def w9dezoomers : List (NamedDezoomer Nat) :=
  [{ name := "a", run := fun _ => Except.error (DezoomerError.wrongDezoomer "a") },
   { name := "b", run := fun _ => Except.error (DezoomerError.downloadError "bad xml") }]

def w9errOf : NamedDezoomer Nat → DezoomerError :=
  fun d => if d.name = "a" then DezoomerError.wrongDezoomer "a"
           else DezoomerError.downloadError "bad xml"

/-- Witness for C9: a dezoomer that always fails with a plain download
error never produces `NeedsData` through the driver loop, and an
auto-dezoomer whose two candidates both fail returns the aggregated
two-entry error list. -/
theorem needs_data_confined_and_errors_aggregated_witness :
    get_dezoomer_result
      (fun (_ : Unit) (_ : DezoomerInput) =>
        ((), (Except.error (DezoomerError.downloadError "x") :
          Except DezoomerError Nat)))
      (fun _ => PageContents.unknown) 3 () "http://u" ≠
      some (Except.error (DezoomerError.needsData "v")) ∧
    auto_dezoomer_result w9data w9dezoomers [] [] =
      AutoDezoomerOutput.aggregatedError
        [("a", DezoomerError.wrongDezoomer "a"),
         ("b", DezoomerError.downloadError "bad xml")] := by
  have h := needs_data_confined_and_errors_aggregated Unit Nat
  refine ⟨h.1 _ _ 3 () "http://u" "v", ?_⟩
  have hall : ∀ d ∈ w9dezoomers, d.run w9data = Except.error (w9errOf d) ∧
      (w9errOf d).isNeedsData = false := by
    intro d hd
    simp only [w9dezoomers, List.mem_cons, List.mem_singleton,
      List.not_mem_nil, or_false] at hd
    rcases hd with rfl | rfl <;> exact ⟨rfl, rfl⟩
  exact (h.2 w9data w9dezoomers w9errOf hall).trans rfl
